import Mathlib

/-!
Verification development for the provider-adapter and configuration-loading
core of the repository.

Part A embeds `packages/openai-adapters/src/index.ts` (the client factory
`constructLlmApi` and the `openAICompatible` helper).

Part B embeds the configuration-loading functions of the core config module
(`resolveSerializedConfig`, `loadSerializedConfig`, and the chat-model
filtering slice of `intermediateToFinalConfig`), with the external
collaborators (file contents, the process environment, `validateConfig`,
`mergeJson`) passed as explicit parameters.

Part C embeds the Anthropic adapter (`apis/Anthropic.ts`, staged among the
sampled sources): its constructor's `apiBase` normalization, the
stop-sequence handling of `_convertToCleanAnthropicBody`, the stream-decoding
loop `handleStreamResponse`, and the usage recomputation of both the
non-streaming and streaming paths.  Only the chunk-building helpers of
`util.ts` (`chatChunk`, `chatChunkFromDelta`, `usageChatChunk`), whose file
is not among the sampled sources, are modelled from the specification's
canonical chunk shape (§3) and their call sites.
-/

/-! ## Part A: `packages/openai-adapters/src/index.ts` -/

/-- The slice of `LLMConfig` that `constructLlmApi` and `openAICompatible`
inspect: the provider tag and the optional `apiBase` override.  All other
fields are carried opaquely in `rest`. -/
structure LLMConfig where
  provider : String
  apiKey : Option String
  apiBase : Option String
  rest : List (String × String)
deriving DecidableEq

/-- The concrete client classes appearing in `index.ts`. -/
inductive ApiClass where
  | openAIApi
  | azureApi
  | bedrockApi
  | cohereApi
  | anthropicApi
  | geminiApi
  | jinaApi
  | deepseekApi
  | moonshotApi
  | relaceApi
  | inceptionApi
  | watsonxApi
  | vertexaiApi
  | llamastackApi
  | continueProxyApi
  | mockApi
deriving DecidableEq

/-- A constructed client: the class that was instantiated together with the
configuration value passed to its constructor (`MockApi` receives none). -/
structure Client where
  cls : ApiClass
  config : Option LLMConfig
deriving DecidableEq

/-- Embedding of `openAICompatible` from `index.ts`: builds an `OpenAIApi`
over the given config with `apiBase` resolved as `config.apiBase ?? apiBase`. -/
def openAICompatible (apiBase : String) (config : LLMConfig) : Client :=
  { cls := ApiClass.openAIApi
    config := some { config with apiBase := some (config.apiBase.getD apiBase) } }

/-- Embedding of `constructLlmApi` from `index.ts`: a switch over
`config.provider`, returning `none` (the `undefined` branch) for unknown
providers. -/
def constructLlmApi (config : LLMConfig) : Option Client :=
  match config.provider with
  | "openai" => some { cls := ApiClass.openAIApi, config := some config }
  | "azure" => some { cls := ApiClass.azureApi, config := some config }
  | "bedrock" => some { cls := ApiClass.bedrockApi, config := some config }
  | "cohere" => some { cls := ApiClass.cohereApi, config := some config }
  | "anthropic" => some { cls := ApiClass.anthropicApi, config := some config }
  | "gemini" => some { cls := ApiClass.geminiApi, config := some config }
  | "jina" => some { cls := ApiClass.jinaApi, config := some config }
  | "deepseek" => some { cls := ApiClass.deepseekApi, config := some config }
  | "moonshot" => some { cls := ApiClass.moonshotApi, config := some config }
  | "relace" => some { cls := ApiClass.relaceApi, config := some config }
  | "inception" => some { cls := ApiClass.inceptionApi, config := some config }
  | "watsonx" => some { cls := ApiClass.watsonxApi, config := some config }
  | "vertexai" => some { cls := ApiClass.vertexaiApi, config := some config }
  | "llamastack" => some { cls := ApiClass.llamastackApi, config := some config }
  | "continue-proxy" => some { cls := ApiClass.continueProxyApi, config := some config }
  | "xAI" => some (openAICompatible "https://api.x.ai/v1/" config)
  | "voyage" => some (openAICompatible "https://api.voyageai.com/v1/" config)
  | "mistral" => some (openAICompatible "https://api.mistral.ai/v1/" config)
  | "deepinfra" => some (openAICompatible "https://api.deepinfra.com/v1/openai/" config)
  | "vllm" => some (openAICompatible "http://localhost:8000/v1/" config)
  | "groq" => some (openAICompatible "https://api.groq.com/openai/v1/" config)
  | "sambanova" => some (openAICompatible "https://api.sambanova.ai/v1/" config)
  | "text-gen-webui" => some (openAICompatible "http://127.0.0.1:5000/v1/" config)
  | "openrouter" => some (openAICompatible "https://openrouter.ai/api/v1/" config)
  | "cerebras" => some (openAICompatible "https://api.cerebras.ai/v1/" config)
  | "kindo" => some (openAICompatible "https://llm.kindo.ai/v1/" config)
  | "msty" => some (openAICompatible "http://localhost:10000" config)
  | "nvidia" => some (openAICompatible "https://integrate.api.nvidia.com/v1/" config)
  | "ovhcloud" => some (openAICompatible "https://oai.endpoints.kepler.ai.cloud.ovh.net/v1/" config)
  | "scaleway" => some (openAICompatible "https://api.scaleway.ai/v1/" config)
  | "fireworks" => some (openAICompatible "https://api.fireworks.ai/inference/v1/" config)
  | "together" => some (openAICompatible "https://api.together.xyz/v1/" config)
  | "ncompass" => some (openAICompatible "https://api.ncompass.tech/v1" config)
  | "novita" => some (openAICompatible "https://api.novita.ai/v3/openai" config)
  | "nebius" => some (openAICompatible "https://api.studio.nebius.ai/v1/" config)
  | "function-network" => some (openAICompatible "https://api.function.network/v1/" config)
  | "llama.cpp" => some (openAICompatible "http://localhost:8000/" config)
  | "llamafile" => some (openAICompatible "http://localhost:8000/" config)
  | "lmstudio" => some (openAICompatible "http://localhost:1234/" config)
  | "ollama" => some (openAICompatible "http://localhost:11434/v1/" config)
  | "mock" => some { cls := ApiClass.mockApi, config := none }
  | _ => none

/-- The provider identifiers for which `constructLlmApi` has a switch case
(in source order). -/
def registeredProviders : List String :=
  ["openai", "azure", "bedrock", "cohere", "anthropic", "gemini", "jina",
   "deepseek", "moonshot", "relace", "inception", "watsonx", "vertexai",
   "llamastack", "continue-proxy", "xAI", "voyage", "mistral", "deepinfra",
   "vllm", "groq", "sambanova", "text-gen-webui", "openrouter", "cerebras",
   "kindo", "msty", "nvidia", "ovhcloud", "scaleway", "fireworks", "together",
   "ncompass", "novita", "nebius", "function-network", "llama.cpp",
   "llamafile", "lmstudio", "ollama", "mock"]

/-- The OpenAI-compatible provider identifiers together with the default
`apiBase` each one passes to `openAICompatible` (in source order). -/
def openAICompatibleDefaults : List (String × String) :=
  [("xAI", "https://api.x.ai/v1/"),
   ("voyage", "https://api.voyageai.com/v1/"),
   ("mistral", "https://api.mistral.ai/v1/"),
   ("deepinfra", "https://api.deepinfra.com/v1/openai/"),
   ("vllm", "http://localhost:8000/v1/"),
   ("groq", "https://api.groq.com/openai/v1/"),
   ("sambanova", "https://api.sambanova.ai/v1/"),
   ("text-gen-webui", "http://127.0.0.1:5000/v1/"),
   ("openrouter", "https://openrouter.ai/api/v1/"),
   ("cerebras", "https://api.cerebras.ai/v1/"),
   ("kindo", "https://llm.kindo.ai/v1/"),
   ("msty", "http://localhost:10000"),
   ("nvidia", "https://integrate.api.nvidia.com/v1/"),
   ("ovhcloud", "https://oai.endpoints.kepler.ai.cloud.ovh.net/v1/"),
   ("scaleway", "https://api.scaleway.ai/v1/"),
   ("fireworks", "https://api.fireworks.ai/inference/v1/"),
   ("together", "https://api.together.xyz/v1/"),
   ("ncompass", "https://api.ncompass.tech/v1"),
   ("novita", "https://api.novita.ai/v3/openai"),
   ("nebius", "https://api.studio.nebius.ai/v1/"),
   ("function-network", "https://api.function.network/v1/"),
   ("llama.cpp", "http://localhost:8000/"),
   ("llamafile", "http://localhost:8000/"),
   ("lmstudio", "http://localhost:1234/"),
   ("ollama", "http://localhost:11434/v1/")]

/-- `true` when the string ends with the path separator character. -/
def endsWithSlash (s : String) : Bool :=
  s.data.getLast? = some '/'

/-- Embedding of the `apiBase` normalization in the `AnthropicApi`
constructor (staged `apis/Anthropic.ts`):
`if (!this.apiBase.endsWith("/")) this.apiBase += "/"`. -/
def normalizeApiBase (s : String) : String :=
  if s.data.getLast? = some '/' then s else s.push '/'

/-- The class-initializer default of `AnthropicApi.apiBase`. -/
def anthropicDefaultApiBase : String := "https://api.anthropic.com/v1/"

/-- Embedding of the `AnthropicApi` constructor's `apiBase` resolution
(staged `apis/Anthropic.ts`): `this.apiBase = config.apiBase ?? this.apiBase`
followed by the trailing-slash normalization. -/
def anthropicConstructorApiBase (config : LLMConfig) : String :=
  normalizeApiBase (config.apiBase.getD anthropicDefaultApiBase)

/-- The effective `apiBase` a constructed client ends up with.  The
`AnthropicApi` case follows its constructor in the staged sources; the mock
client has no `apiBase`; the other client classes' constructors are not
among the sampled sources and are modelled from the spec (§3: "defaulted
per provider, always normalized to end with a path separator") after the
in-source `AnthropicApi` pattern, with their defaults abstract
(`classDefaults`). -/
def Client.effectiveApiBase (classDefaults : ApiClass → String) (cl : Client) :
    Option String :=
  match cl.cls with
  | ApiClass.mockApi => none
  | ApiClass.anthropicApi =>
    match cl.config with
    | some cfg => some (anthropicConstructorApiBase cfg)
    | none => some (normalizeApiBase anthropicDefaultApiBase)
  | c =>
    match cl.config with
    | some cfg => some (normalizeApiBase (cfg.apiBase.getD (classDefaults c)))
    | none => some (normalizeApiBase (classDefaults c))

/-! ### Part A theorems -/

/-- C1: `constructLlmApi` produces a client exactly for the provider
identifiers in the registry; every identifier outside the registry yields the
unsupported-provider outcome (`none`, i.e. `undefined`). -/
theorem constructLlmApi_some_iff_registered (c : LLMConfig) :
    (constructLlmApi c).isSome = true ↔ c.provider ∈ registeredProviders := by
  unfold constructLlmApi
  split <;> simp_all [registeredProviders]

/-- `normalizeApiBase` always yields a string ending with the path
separator. -/
theorem endsWithSlash_normalizeApiBase (s : String) :
    endsWithSlash (normalizeApiBase s) = true := by
  unfold normalizeApiBase endsWithSlash
  split
  · simp [*]
  · cases s with
    | mk data => simp [String.push]

/-- C2: every client accepted and produced by the factory that carries an
effective `apiBase` (the mock client carries none) has one ending with the
path separator, for any assignment of per-class defaults — the
`AnthropicApi` case by its in-source constructor, the rest by the
spec-modelled constructors patterned on it. -/
theorem client_effectiveApiBase_endsWithSlash
    (classDefaults : ApiClass → String) (cfg : LLMConfig) (cl : Client)
    (base : String)
    (hc : constructLlmApi cfg = some cl)
    (hb : cl.effectiveApiBase classDefaults = some base) :
    endsWithSlash base = true := by
  rcases cl with ⟨cls, ocfg⟩
  cases cls <;> cases ocfg <;>
    simp [Client.effectiveApiBase, anthropicConstructorApiBase] at hb <;>
    (subst hb; exact endsWithSlash_normalizeApiBase _)

/-- Witness for C2: an `anthropic` config whose override lacks the trailing
slash yields a client whose `apiBase` ends with one, via the in-source
constructor. -/
theorem client_effectiveApiBase_endsWithSlash_witness :
    endsWithSlash "https://example.com/api/" = true :=
  client_effectiveApiBase_endsWithSlash (fun _ => "unused")
    { provider := "anthropic", apiKey := none,
      apiBase := some "https://example.com/api", rest := [] }
    { cls := ApiClass.anthropicApi
      config := some { provider := "anthropic", apiKey := none,
                       apiBase := some "https://example.com/api", rest := [] } }
    "https://example.com/api/" (by decide) (by decide)

/-- C4: every OpenAI-compatible provider identifier resolves to the generic
`OpenAIApi` client whose `apiBase` is the caller's `config.apiBase` when
present and the provider's registered default otherwise. -/
theorem constructLlmApi_openAICompatible_resolution
    (c : LLMConfig) (p d : String)
    (hmem : (p, d) ∈ openAICompatibleDefaults) (hp : c.provider = p) :
    constructLlmApi c =
      some { cls := ApiClass.openAIApi
             config := some { c with apiBase := some (c.apiBase.getD d) } } := by
  subst hp
  unfold constructLlmApi
  split <;> simp_all [openAICompatibleDefaults, openAICompatible]

/-- Witness for C4: `ollama` with no override resolves to the generic client
at its default endpoint. -/
theorem constructLlmApi_openAICompatible_resolution_witness :
    constructLlmApi { provider := "ollama", apiKey := none, apiBase := none,
                      rest := [] } =
      some { cls := ApiClass.openAIApi
             config := some { provider := "ollama", apiKey := none,
                              apiBase := some "http://localhost:11434/v1/",
                              rest := [] } } :=
  constructLlmApi_openAICompatible_resolution
    { provider := "ollama", apiKey := none, apiBase := none, rest := [] }
    "ollama" "http://localhost:11434/v1/" (by decide) rfl

/-! ## Part B: the configuration-loading module

`resolveSerializedConfig` reads a JSONC file, and — when the parsed config
carries an `env` array — substitutes the values of the named variables from
`{ ...process.env, ...getContinueDotEnv() }` into the raw text before
reparsing.  The JSONC parser is modelled for the string/array/object
fragment these properties exercise. -/

/-- JSON values: strings, arrays and objects. -/
inductive JVal where
  | str (s : String)
  | arr (elems : List JVal)
  | obj (fields : List (String × JVal))

/-- The opening-brace and closing-brace characters. -/
def lbraceChar : Char := Char.ofNat 123

def rbraceChar : Char := Char.ofNat 125

/-- Drop leading JSON whitespace. -/
def skipWs : List Char → List Char
  | c :: rest =>
    if c = ' ' ∨ c = '\n' ∨ c = '\t' ∨ c = '\r' then skipWs rest else c :: rest
  | [] => []

/-- Parse the remainder of a string literal after its opening quote
(escape-free fragment). -/
def parseStringBody : List Char → Option (String × List Char)
  | [] => none
  | c :: rest =>
    if c = '"' then some ("", rest)
    else
      match parseStringBody rest with
      | some (s, r) => some (String.mk (c :: s.data), r)
      | none => none

mutual

/-- Parse one JSON value (fuel-indexed recursive descent). -/
def parseVal : Nat → List Char → Option (JVal × List Char)
  | 0, _ => none
  | fuel + 1, cs =>
    match skipWs cs with
    | [] => none
    | c :: rest =>
      if c = '"' then
        match parseStringBody rest with
        | some (s, r) => some (JVal.str s, r)
        | none => none
      else if c = '[' then
        match parseArrItems fuel rest with
        | some (vs, r) => some (JVal.arr vs, r)
        | none => none
      else if c = lbraceChar then
        match parseObjItems fuel rest with
        | some (fs, r) => some (JVal.obj fs, r)
        | none => none
      else none

/-- Parse array elements up to the closing bracket. -/
def parseArrItems : Nat → List Char → Option (List JVal × List Char)
  | 0, _ => none
  | fuel + 1, cs =>
    match skipWs cs with
    | [] => none
    | c :: rest =>
      if c = ']' then some ([], rest)
      else
        match parseVal fuel (c :: rest) with
        | some (v, r) =>
          match skipWs r with
          | c2 :: r2 =>
            if c2 = ',' then
              match parseArrItems fuel r2 with
              | some (vs, r3) => some (v :: vs, r3)
              | none => none
            else if c2 = ']' then some ([v], r2)
            else none
          | [] => none
        | none => none

/-- Parse object fields up to the closing brace. -/
def parseObjItems : Nat → List Char → Option (List (String × JVal) × List Char)
  | 0, _ => none
  | fuel + 1, cs =>
    match skipWs cs with
    | [] => none
    | c :: rest =>
      if c = rbraceChar then some ([], rest)
      else if c = '"' then
        match parseStringBody rest with
        | some (key, r) =>
          match skipWs r with
          | c2 :: r2 =>
            if c2 = ':' then
              match parseVal fuel r2 with
              | some (v, r3) =>
                match skipWs r3 with
                | c3 :: r4 =>
                  if c3 = ',' then
                    match parseObjItems fuel r4 with
                    | some (fs, r5) => some ((key, v) :: fs, r5)
                    | none => none
                  else if c3 = rbraceChar then some ([(key, v)], r4)
                  else none
                | [] => none
              | none => none
            else none
          | [] => none
        | none => none
      else none

end

/-- The fields of `SerializedContinueConfig` that `loadSerializedConfig`
manipulates directly; all remaining fields travel opaquely in `rest`. -/
structure SerializedConfig where
  allowAnonymousTelemetry : Option Bool
  disableIndexing : Option Bool
  rest : List (String × String)
deriving DecidableEq

/-- An entry of the list returned by `validateConfig`. -/
structure ConfigValidationError where
  fatal : Bool
  message : String
deriving DecidableEq

/-- `ConfigResult` from `@continuedev/config-yaml`, as produced by
`loadSerializedConfig`. -/
structure ConfigResult (α : Type) where
  errors : Option (List ConfigValidationError)
  config : Option α
  configLoadInterrupted : Bool
deriving DecidableEq

/-- A `.continuerc.json` workspace config: the config content together with
its `mergeBehavior`. -/
structure ContinueRcJson where
  config : SerializedConfig
  mergeBehavior : String
deriving DecidableEq

/-- The external collaborators of `loadSerializedConfig`, passed explicitly:
the outcome of resolving the local config file (`Except.error` models the
exception), the outcome of resolving the remote config file, the
`validateConfig` function from `./validation.js`, the `mergeJson` function
from `../util/merge` (applied to two configs and a merge behavior), and the
result of `os.platform() === "linux" &&
!isSupportedLanceDbCpuTargetForLinux(ide)`. -/
structure LoadDeps where
  fileConfig : Except String SerializedConfig
  remoteConfig : Except String SerializedConfig
  validateConfig : SerializedConfig → Option (List ConfigValidationError)
  mergeJson : SerializedConfig → SerializedConfig → String → SerializedConfig
  linuxUnsupportedLanceDb : Bool

/-- Embedding of `loadSerializedConfig`: take the override config when
present, otherwise the resolved file config (rethrowing a parse failure);
validate; on any fatal error return with no config and
`configLoadInterrupted`; otherwise default `allowAnonymousTelemetry` to
`true`, merge the remote config (when a remote server URL is set and the
remote config resolves), fold in the workspace configs, and force
`disableIndexing` on unsupported Linux targets. -/
def loadSerializedConfig (deps : LoadDeps)
    (workspaceConfigs : List ContinueRcJson)
    (remoteConfigServerUrl : Option String)
    (overrideConfigJson : Option SerializedConfig) :
    Except String (ConfigResult SerializedConfig) :=
  match (match overrideConfigJson with
         | some c => Except.ok c
         | none =>
           match deps.fileConfig with
           | Except.ok c => Except.ok c
           | Except.error e =>
             Except.error ("Failed to parse config.json: " ++ e)) with
  | Except.error e => Except.error e
  | Except.ok config =>
    let errors := deps.validateConfig config
    if (errors.getD []).any (fun err => err.fatal) then
      Except.ok { errors := errors, config := none,
                  configLoadInterrupted := true }
    else
      let config :=
        if config.allowAnonymousTelemetry = none then
          { config with allowAnonymousTelemetry := some true }
        else config
      let config :=
        match remoteConfigServerUrl with
        | some url =>
          if url.isEmpty then config
          else
            match deps.remoteConfig with
            | Except.ok remote => deps.mergeJson config remote "merge"
            | Except.error _ => config
        | none => config
      let config := workspaceConfigs.foldl
        (fun c wc => deps.mergeJson c wc.config wc.mergeBehavior) config
      let config :=
        if deps.linuxUnsupportedLanceDb then
          { config with disableIndexing := some true }
        else config
      Except.ok { errors := errors, config := some config,
                  configLoadInterrupted := false }

/-! ### The chat-model filter of `intermediateToFinalConfig` -/

/-- The slice of a constructed model that the free-trial filtering in
`intermediateToFinalConfig` inspects. -/
structure ModelInstance where
  providerName : String
  title : String
deriving DecidableEq

/-- `models = models.filter((model) => model.providerName !== "free-trial")`:
the chat-model list placed into `modelsByRole.chat` of the final config,
starting from the models built from the config's descriptions. -/
def chatModelsAfterFilter (models : List ModelInstance) : List ModelInstance :=
  models.filter (fun m => !(m.providerName == "free-trial"))

/-- The immediately following emptiness check
(`if (models.filter((m) => m.providerName === "free-trial").length)`),
which runs on the already-filtered list and decides whether the chat-model
branch raises the free-trial warning. -/
def warnAboutFreeTrialFromChatModels (models : List ModelInstance) : Bool :=
  ((chatModelsAfterFilter models).filter
      (fun m => m.providerName == "free-trial")).length != 0

/-- C8: whenever `validateConfig` reports at least one fatal error,
`loadSerializedConfig` returns with no config and `configLoadInterrupted`,
and the result mentions none of the later stages (telemetry defaulting,
remote-config merge, workspace merges), for any merge function and any
remote/workspace inputs. -/
theorem loadSerializedConfig_fatal_interrupts (deps : LoadDeps)
    (wcs : List ContinueRcJson) (url : Option String)
    (ov : Option SerializedConfig) (cfg : SerializedConfig)
    (hres : ov = some cfg ∨ (ov = none ∧ deps.fileConfig = Except.ok cfg))
    (hfatal : ((deps.validateConfig cfg).getD []).any (fun e => e.fatal) = true) :
    loadSerializedConfig deps wcs url ov =
      Except.ok { errors := deps.validateConfig cfg, config := none,
                  configLoadInterrupted := true } := by
  rcases hres with rfl | ⟨rfl, hf⟩
  · unfold loadSerializedConfig; simp [hfatal]
  · unfold loadSerializedConfig; simp [hfatal, hf]

/-- Witness for C8: a validator reporting one fatal error interrupts the
load. -/
theorem loadSerializedConfig_fatal_interrupts_witness :
    loadSerializedConfig
        { fileConfig := Except.error "unread"
          remoteConfig := Except.error "unread"
          validateConfig := fun _ => some [{ fatal := true, message := "bad" }]
          mergeJson := fun c _ _ => c
          linuxUnsupportedLanceDb := false }
        [] none
        (some { allowAnonymousTelemetry := none, disableIndexing := none,
                rest := [] }) =
      Except.ok { errors := some [{ fatal := true, message := "bad" }],
                  config := none, configLoadInterrupted := true } :=
  loadSerializedConfig_fatal_interrupts
    { fileConfig := Except.error "unread"
      remoteConfig := Except.error "unread"
      validateConfig := fun _ => some [{ fatal := true, message := "bad" }]
      mergeJson := fun c _ _ => c
      linuxUnsupportedLanceDb := false }
    [] none
    (some { allowAnonymousTelemetry := none, disableIndexing := none,
            rest := [] })
    { allowAnonymousTelemetry := none, disableIndexing := none, rest := [] }
    (Or.inl rfl) (by decide)

/-- C9: with no fatal validation error, every config that leaves
`allowAnonymousTelemetry` unspecified is loaded with it set to `true` (here
with no remote server configured and no workspace configs, so that no
external merge reshapes the result). -/
theorem loadSerializedConfig_telemetry_default (deps : LoadDeps)
    (ov : Option SerializedConfig) (cfg : SerializedConfig)
    (hres : ov = some cfg ∨ (ov = none ∧ deps.fileConfig = Except.ok cfg))
    (hnofatal :
      ((deps.validateConfig cfg).getD []).any (fun e => e.fatal) = false)
    (htel : cfg.allowAnonymousTelemetry = none) :
    ∃ final, loadSerializedConfig deps [] none ov =
        Except.ok { errors := deps.validateConfig cfg, config := some final,
                    configLoadInterrupted := false } ∧
      final.allowAnonymousTelemetry = some true := by
  rcases hres with rfl | ⟨rfl, hf⟩
  · unfold loadSerializedConfig
    simp [hnofatal, htel]
    cases deps.linuxUnsupportedLanceDb <;> simp
  · unfold loadSerializedConfig
    simp [hnofatal, htel, hf]
    cases deps.linuxUnsupportedLanceDb <;> simp

/-- Witness for C9: a config with unspecified telemetry loads with
`allowAnonymousTelemetry = true`. -/
theorem loadSerializedConfig_telemetry_default_witness :
    ∃ final, loadSerializedConfig
        { fileConfig := Except.ok { allowAnonymousTelemetry := none,
                                    disableIndexing := none, rest := [] }
          remoteConfig := Except.error "unread"
          validateConfig := fun _ => none
          mergeJson := fun c _ _ => c
          linuxUnsupportedLanceDb := false }
        [] none none =
        Except.ok { errors := none, config := some final,
                    configLoadInterrupted := false } ∧
      final.allowAnonymousTelemetry = some true :=
  loadSerializedConfig_telemetry_default
    { fileConfig := Except.ok { allowAnonymousTelemetry := none,
                                disableIndexing := none, rest := [] }
      remoteConfig := Except.error "unread"
      validateConfig := fun _ => none
      mergeJson := fun c _ _ => c
      linuxUnsupportedLanceDb := false }
    none
    { allowAnonymousTelemetry := none, disableIndexing := none, rest := [] }
    (Or.inr ⟨rfl, rfl⟩) (by decide) rfl

/-- C10: the chat-model list of the final config contains no model whose
provider is `free-trial`, and — since the emptiness check runs on the
already-filtered list — the chat-model branch never raises the free-trial
warning. -/
theorem intermediateToFinalConfig_no_free_trial_chat
    (models : List ModelInstance) :
    (∀ m ∈ chatModelsAfterFilter models, m.providerName ≠ "free-trial") ∧
    warnAboutFreeTrialFromChatModels models = false := by
  constructor
  · intro m hm
    have h := List.of_mem_filter hm
    simpa using h
  · unfold warnAboutFreeTrialFromChatModels chatModelsAfterFilter
    simp [List.filter_filter]

/-- Witness for C10: a list containing a free-trial model keeps only the
other model and raises no warning from this branch. -/
theorem intermediateToFinalConfig_no_free_trial_chat_witness :
    ((⟨"ollama", "Ollama"⟩ : ModelInstance).providerName ≠ "free-trial") ∧
      warnAboutFreeTrialFromChatModels
        [⟨"free-trial", "Trial"⟩, ⟨"ollama", "Ollama"⟩] = false :=
  ⟨(intermediateToFinalConfig_no_free_trial_chat
        [⟨"free-trial", "Trial"⟩, ⟨"ollama", "Ollama"⟩]).1
      ⟨"ollama", "Ollama"⟩ (by decide),
   (intermediateToFinalConfig_no_free_trial_chat
        [⟨"free-trial", "Trial"⟩, ⟨"ollama", "Ollama"⟩]).2⟩


/-! ## Part C: the Anthropic adapter (`apis/Anthropic.ts`, staged in the
sampled sources)

The `apiBase` normalization of its constructor is embedded in Part A
(`anthropicConstructorApiBase`).  Below: the canonical chunk slice, the
stream-decoding loop `handleStreamResponse`, the usage recomputation of the
non-streaming path, and the stop-sequence handling of
`_convertToCleanAnthropicBody`. -/

/-- The canonical usage record (spec §3), as populated by the adapter's two
usage paths. -/
structure Usage where
  promptTokens : Nat
  completionTokens : Nat
  totalTokens : Nat
  cachedTokens : Nat
deriving DecidableEq

/-- A tool-call delta within a canonical chunk (spec §3), as populated at
the `chatChunkFromDelta` call site (`id`, `index: 0`, function name and
argument fragment). -/
structure ToolCallDelta where
  id : Option String
  index : Nat
  nameFragment : Option String
  argumentsFragment : String
deriving DecidableEq

/-- The slice of a canonical streaming chunk (spec §3) that the adapter's
chunk helpers populate (the model identifier is not tracked here). -/
structure ChatCompletionChunk where
  textDelta : Option String
  toolCallDeltas : List ToolCallDelta
  usage : Option Usage
  finishReason : Option String
deriving DecidableEq

/-- Modelled from the spec: the body of the `chatChunk` helper of `util.ts`
is not among the sampled sources; per §3 and its call site it carries a
text content delta and nothing else. -/
def chatChunk (content : String) : ChatCompletionChunk :=
  { textDelta := some content, toolCallDeltas := [], usage := none,
    finishReason := none }

/-- Modelled from the spec: the body of the `chatChunkFromDelta` helper of
`util.ts` is not among the sampled sources; per §3 and its call site it
carries one tool-call delta with the arguments fragment (`index: 0` as at
the call site). -/
def chatChunkFromDelta (id name partialJson : String) : ChatCompletionChunk :=
  { textDelta := none
    toolCallDeltas := [{ id := some id, index := 0, nameFragment := some name,
                         argumentsFragment := partialJson }]
    usage := none, finishReason := none }

/-- Modelled from the spec: the body of the `usageChatChunk` helper of
`util.ts` is not among the sampled sources; per §3 and its call site it
carries the usage record and no content delta. -/
def usageChatChunk (u : Usage) : ChatCompletionChunk :=
  { textDelta := none, toolCallDeltas := [], usage := some u,
    finishReason := none }

/-- A `content_block_start`'s block: the decoder only distinguishes
`tool_use` blocks (recording id and name) from everything else. -/
inductive ContentBlock where
  | toolUse (id : String) (name : String)
  | other (tag : String)
deriving DecidableEq

/-- A `content_block_delta`'s `delta.type` dispatch: `text_delta`,
`input_json_delta`, or any other delta type (ignored). -/
inductive AnthropicDelta where
  | textDelta (text : String)
  | inputJsonDelta (partialJson : String)
  | otherDelta (tag : String)
deriving DecidableEq

/-- The SSE events `handleStreamResponse` switches on.  `message_stop` has
no case of its own in the source and falls to the ignoring default; other
unlisted tags are `otherEvent`. -/
inductive AnthropicSseEvent where
  | messageStart (inputTokens : Option Nat) (cacheReadInputTokens : Option Nat)
  | messageDelta (outputTokens : Option Nat)
  | contentBlockStart (block : ContentBlock)
  | contentBlockDelta (delta : AnthropicDelta)
  | contentBlockStop
  | messageStop
  | otherEvent (tag : String)
deriving DecidableEq

/-- The loop state of `handleStreamResponse`: the last tool-use id and name
and the running usage counts. -/
structure StreamState where
  lastToolUseId : Option String
  lastToolUseName : Option String
  promptTokens : Nat
  completionTokens : Nat
  cachedTokens : Nat
deriving DecidableEq

/-- The state at loop entry (usage counters zeroed, no tool use seen). -/
def initialStreamState : StreamState :=
  { lastToolUseId := none, lastToolUseName := none, promptTokens := 0,
    completionTokens := 0, cachedTokens := 0 }

/-- The `throw new Error("No tool use found")` of the `input_json_delta`
case. -/
inductive StreamError where
  | noToolUseFound
deriving DecidableEq

/-- Embedding of one iteration of the `handleStreamResponse` switch:
`content_block_start` records a tool use, `message_start` seeds the prompt
and cached token counts, `message_delta` updates the completion count, a
`text_delta` yields a text chunk unconditionally, an `input_json_delta`
yields a tool-call chunk when the recorded id and name are truthy and
throws otherwise, `content_block_stop` clears the recorded tool use, and
`message_stop` and unrecognized tags are ignored. -/
def handleStreamEvent (s : StreamState) (e : AnthropicSseEvent) :
    Except StreamError (Option ChatCompletionChunk × StreamState) :=
  match e with
  | AnthropicSseEvent.contentBlockStart block =>
    match block with
    | ContentBlock.toolUse id name =>
      Except.ok (none, { s with lastToolUseId := some id,
                                lastToolUseName := some name })
    | ContentBlock.other _ => Except.ok (none, s)
  | AnthropicSseEvent.messageStart inputTokens cacheRead =>
    Except.ok (none, { s with promptTokens := inputTokens.getD 0,
                              cachedTokens := cacheRead.getD 0 })
  | AnthropicSseEvent.messageDelta outputTokens =>
    Except.ok (none, { s with completionTokens := outputTokens.getD 0 })
  | AnthropicSseEvent.contentBlockDelta delta =>
    match delta with
    | AnthropicDelta.textDelta text => Except.ok (some (chatChunk text), s)
    | AnthropicDelta.inputJsonDelta partialJson =>
      if (s.lastToolUseId.getD "").isEmpty ∨
          (s.lastToolUseName.getD "").isEmpty then
        Except.error StreamError.noToolUseFound
      else
        Except.ok (some (chatChunkFromDelta (s.lastToolUseId.getD "")
          (s.lastToolUseName.getD "") partialJson), s)
    | AnthropicDelta.otherDelta _ => Except.ok (none, s)
  | AnthropicSseEvent.contentBlockStop =>
    Except.ok (none, { s with lastToolUseId := none, lastToolUseName := none })
  | AnthropicSseEvent.messageStop => Except.ok (none, s)
  | AnthropicSseEvent.otherEvent _ => Except.ok (none, s)

/-- The `for await` loop of `handleStreamResponse` over the event stream,
collecting the yielded chunks and the final state; the loop runs to the end
of the stream (`message_stop` is ignored on the way). -/
def handleStreamEvents : StreamState → List AnthropicSseEvent →
    Except StreamError (List ChatCompletionChunk × StreamState)
  | s, [] => Except.ok ([], s)
  | s, e :: rest =>
    match handleStreamEvent s e with
    | Except.error err => Except.error err
    | Except.ok (oc, s1) =>
      match handleStreamEvents s1 rest with
      | Except.error err => Except.error err
      | Except.ok (cs, s2) => Except.ok (oc.toList ++ cs, s2)

/-- Embedding of the trailing `yield usageChatChunk(...)`: the terminal
usage with `total_tokens` recomputed as
`usage.completion_tokens + usage.prompt_tokens`. -/
def finalUsage (s : StreamState) : Usage :=
  { promptTokens := s.promptTokens, completionTokens := s.completionTokens,
    totalTokens := s.completionTokens + s.promptTokens,
    cachedTokens := s.cachedTokens }

/-- Embedding of `handleStreamResponse`: run the loop over the whole
stream, then yield exactly one terminal usage chunk. -/
def handleStreamResponse (events : List AnthropicSseEvent) :
    Except StreamError (List ChatCompletionChunk) :=
  match handleStreamEvents initialStreamState events with
  | Except.error err => Except.error err
  | Except.ok (cs, s) => Except.ok (cs ++ [usageChatChunk (finalUsage s)])

/-- Every chunk yielded inside the loop carries no usage record. -/
theorem handleStreamEvent_no_usage (s : StreamState) (e : AnthropicSseEvent)
    (c : ChatCompletionChunk) (s1 : StreamState)
    (h : handleStreamEvent s e = Except.ok (some c, s1)) : c.usage = none := by
  cases e with
  | contentBlockStart block => cases block <;> simp [handleStreamEvent] at h
  | messageStart a b => simp [handleStreamEvent] at h
  | messageDelta a => simp [handleStreamEvent] at h
  | contentBlockDelta d =>
    cases d with
    | textDelta t =>
      simp [handleStreamEvent, chatChunk] at h
      obtain ⟨h1, -⟩ := h
      subst h1
      rfl
    | inputJsonDelta pj =>
      simp only [handleStreamEvent] at h
      split at h
      · exact absurd h (by simp)
      · simp [chatChunkFromDelta] at h
        obtain ⟨h1, -⟩ := h
        subst h1
        rfl
    | otherDelta t => simp [handleStreamEvent] at h
  | contentBlockStop => simp [handleStreamEvent] at h
  | messageStop => simp [handleStreamEvent] at h
  | otherEvent t => simp [handleStreamEvent] at h

/-- No chunk collected by the loop carries a usage record: usage travels
only in the terminal chunk appended afterwards. -/
theorem handleStreamEvents_no_usage (events : List AnthropicSseEvent) :
    ∀ (s : StreamState) (cs : List ChatCompletionChunk) (s2 : StreamState),
      handleStreamEvents s events = Except.ok (cs, s2) →
      ∀ c ∈ cs, c.usage = none := by
  induction events with
  | nil =>
    intro s cs s2 h c hc
    simp [handleStreamEvents] at h
    obtain ⟨h1, -⟩ := h
    subst h1
    simp at hc
  | cons e rest ih =>
    intro s cs s2 h c hc
    rw [show handleStreamEvents s (e :: rest) =
        (match handleStreamEvent s e with
         | Except.error err => Except.error err
         | Except.ok (oc, s1) =>
           match handleStreamEvents s1 rest with
           | Except.error err => Except.error err
           | Except.ok (cs, s3) => Except.ok (oc.toList ++ cs, s3)) from
      rfl] at h
    cases hstep : handleStreamEvent s e with
    | error err => rw [hstep] at h; exact absurd h (by simp)
    | ok p =>
      obtain ⟨oc, s1⟩ := p
      rw [hstep] at h
      dsimp only at h
      cases hrun : handleStreamEvents s1 rest with
      | error err => rw [hrun] at h; exact absurd h (by simp)
      | ok q =>
        obtain ⟨cs1, s3⟩ := q
        rw [hrun] at h
        dsimp only at h
        simp at h
        obtain ⟨h1, -⟩ := h
        subst h1
        rcases List.mem_append.mp hc with hc1 | hc2
        · cases oc with
          | none => simp at hc1
          | some c0 =>
            simp at hc1
            subst hc1
            exact handleStreamEvent_no_usage s e c s1 hstep
        · exact ih s1 cs1 s3 hrun c hc2

/-- C5: every stream decoded without error yields a chunk sequence with
exactly one terminal chunk; it is the last element, carries a usage record,
and carries no content delta (neither text nor tool-call deltas). -/
theorem handleStreamResponse_unique_terminal (events : List AnthropicSseEvent)
    (chunks : List ChatCompletionChunk)
    (h : handleStreamResponse events = Except.ok chunks) :
    (chunks.filter (fun c => c.usage.isSome)).length = 1 ∧
    ∃ last, chunks.getLast? = some last ∧ last.usage.isSome = true ∧
      last.textDelta = none ∧ last.toolCallDeltas = [] := by
  unfold handleStreamResponse at h
  cases hrun : handleStreamEvents initialStreamState events with
  | error err => rw [hrun] at h; exact absurd h (by simp)
  | ok p =>
    obtain ⟨cs, s⟩ := p
    rw [hrun] at h
    dsimp only at h
    simp at h
    subst h
    have hnone := handleStreamEvents_no_usage events initialStreamState cs s hrun
    have hfilter : cs.filter (fun c => c.usage.isSome) = [] := by
      rw [List.filter_eq_nil_iff]
      intro c hc
      simp [hnone c hc]
    constructor
    · rw [List.filter_append, hfilter]
      simp [usageChatChunk]
    · exact ⟨usageChatChunk (finalUsage s), by simp, by simp [usageChatChunk],
        rfl, rfl⟩

/-- The representative stream of §8 in the adapter's event shapes: ten
prompt tokens, one text block with delta "Hi", three completion tokens. -/
def demoEvents : List AnthropicSseEvent :=
  [AnthropicSseEvent.messageStart (some 10) none,
   AnthropicSseEvent.contentBlockStart (ContentBlock.other "text"),
   AnthropicSseEvent.contentBlockDelta (AnthropicDelta.textDelta "Hi"),
   AnthropicSseEvent.contentBlockStop,
   AnthropicSseEvent.messageDelta (some 3),
   AnthropicSseEvent.messageStop]

/-- The two chunks the decoder yields on `demoEvents`. -/
def demoChunks : List ChatCompletionChunk :=
  [{ textDelta := some "Hi", toolCallDeltas := [], usage := none,
     finishReason := none },
   { textDelta := none, toolCallDeltas := [],
     usage := some { promptTokens := 10, completionTokens := 3,
                     totalTokens := 13, cachedTokens := 0 },
     finishReason := none }]

/-- Witness for C5: the §8 stream decodes to exactly two chunks whose last
element is the unique terminal chunk with usage {10, 3, 13}. -/
theorem handleStreamResponse_unique_terminal_witness :
    (demoChunks.filter (fun c => c.usage.isSome)).length = 1 ∧
    ∃ last, demoChunks.getLast? = some last ∧ last.usage.isSome = true ∧
      last.textDelta = none ∧ last.toolCallDeltas = [] :=
  handleStreamResponse_unique_terminal demoEvents demoChunks rfl

/-- The usage record of an Anthropic non-streaming response
(`completion.usage`, a loose numeric record): the fields the adapter reads,
plus any vendor-reported total — which the adapter never reads. -/
structure AnthropicUsage where
  inputTokens : Option Nat
  outputTokens : Option Nat
  reportedTotalTokens : Option Nat
  cacheReadInputTokens : Option Nat
deriving DecidableEq

/-- Embedding of the usage construction in `chatCompletionNonStream`
(staged `apis/Anthropic.ts`): `total_tokens` is recomputed as
`(usage?.input_tokens ?? 0) + (usage?.output_tokens ?? 0)` and cached
tokens default to zero. -/
def anthropicNonStreamUsage (usage : Option AnthropicUsage) : Usage :=
  { promptTokens := (usage.bind AnthropicUsage.inputTokens).getD 0
    completionTokens := (usage.bind AnthropicUsage.outputTokens).getD 0
    totalTokens := (usage.bind AnthropicUsage.inputTokens).getD 0 +
      (usage.bind AnthropicUsage.outputTokens).getD 0
    cachedTokens := (usage.bind AnthropicUsage.cacheReadInputTokens).getD 0 }

/-- C6: both usage paths of the Anthropic adapter recompute `totalTokens`
as the sum of the two canonical fields — the non-streaming path for every
vendor usage record, invariantly in any vendor-reported total (that field
is never copied), and the streaming terminal path for every loop state. -/
theorem anthropicUsage_total_recomputed :
    (∀ u : Option AnthropicUsage,
      ((anthropicNonStreamUsage u).totalTokens =
        (anthropicNonStreamUsage u).promptTokens +
          (anthropicNonStreamUsage u).completionTokens) ∧
      ∀ t, anthropicNonStreamUsage
          (u.map (fun x => { x with reportedTotalTokens := t })) =
        anthropicNonStreamUsage u) ∧
    ∀ s : StreamState, (finalUsage s).totalTokens =
      (finalUsage s).promptTokens + (finalUsage s).completionTokens := by
  refine ⟨fun u => ⟨rfl, fun t => ?_⟩, fun s => Nat.add_comm _ _⟩
  cases u <;> rfl

/-- A string stripped of leading and trailing whitespace (the semantics of
the JavaScript `x.trim()` calls in the stop-sequence handling, used to
recognize blank entries). -/
def trimChars (s : String) : String :=
  String.mk
    (((s.data.dropWhile Char.isWhitespace).reverse.dropWhile
        Char.isWhitespace).reverse)

/-- The canonical stop-sequence input of the incoming OpenAI-format body:
a single string or a list of strings. -/
inductive StopInput where
  | single (s : String)
  | many (ss : List String)
deriving DecidableEq

/-- Embedding of the stop-sequence handling in
`_convertToCleanAnthropicBody` (staged `apis/Anthropic.ts`): an array input
(always truthy in JavaScript, even when empty) keeps its non-blank entries
— possibly none; a single string becomes a one-element list when non-blank;
otherwise `stop` stays `undefined`. -/
def convertStopSequences (stop : Option StopInput) : Option (List String) :=
  match stop with
  | some (StopInput.many ss) =>
    some (ss.filter (fun x => !(trimChars x == "")))
  | some (StopInput.single s) =>
    if trimChars s == "" then none else some [s]
  | none => none

/-- The slice of the canonical request carrying the stop-sequence input. -/
structure CanonicalRequest where
  model : String
  stop : Option StopInput
deriving DecidableEq

/-- The corresponding slice of the Anthropic request body:
`stopSequences = none` models `undefined`, which `JSON.stringify` omits
from the wire body, while `some l` — including `some []` — is serialized as
a `stop_sequences` field. -/
structure VendorRequest where
  model : String
  stopSequences : Option (List String)
deriving DecidableEq

/-- The model/stop slice of `_convertToCleanAnthropicBody`. -/
def convertToCleanAnthropicBody (r : CanonicalRequest) : VendorRequest :=
  { model := r.model, stopSequences := convertStopSequences r.stop }

/-- C7 counterexample: a stop-sequence list consisting of one blank string
translates to a body whose `stop_sequences` field is present (as the empty
array), not omitted. -/
theorem convertStopSequences_blank_list_counterexample :
    (convertToCleanAnthropicBody
        { model := "claude-3-5-sonnet",
          stop := some (StopInput.many [""]) }).stopSequences = some [] ∧
    (convertToCleanAnthropicBody
        { model := "claude-3-5-sonnet",
          stop := some (StopInput.many [""]) }).stopSequences ≠ none := by
  decide

/-- C7 (amended): blank stop entries are discarded — a single blank string
yields a body with no stop-sequence field, while a list of only blank
strings yields a present but empty `stop_sequences` array. -/
theorem convertStopSequences_blank_discarded (m s : String) (ss : List String)
    (hs : trimChars s = "") (hss : ∀ x ∈ ss, trimChars x = "") :
    (convertToCleanAnthropicBody
        { model := m, stop := some (StopInput.single s) }).stopSequences =
      none ∧
    (convertToCleanAnthropicBody
        { model := m, stop := some (StopInput.many ss) }).stopSequences =
      some [] := by
  constructor
  · simp [convertToCleanAnthropicBody, convertStopSequences, hs]
  · have hnil : ss.filter (fun x => !(trimChars x == "")) = [] := by
      rw [List.filter_eq_nil_iff]
      intro x hx
      simp [hss x hx]
    simp [convertToCleanAnthropicBody, convertStopSequences, hnil]

/-- Witness for the amended C7: a blank single string is omitted; a list of
two blank strings keeps an empty `stop_sequences` array. -/
theorem convertStopSequences_blank_discarded_witness :
    (convertToCleanAnthropicBody
        { model := "claude",
          stop := some (StopInput.single " ") }).stopSequences = none ∧
    (convertToCleanAnthropicBody
        { model := "claude",
          stop := some (StopInput.many ["", " "]) }).stopSequences = some [] :=
  convertStopSequences_blank_discarded "claude" " " ["", " "] (by decide)
    (by decide)
